import Mathlib

/-!
Shallow embedding of the credential/session lifecycle manager:
the JWT utility module (generateTokens, verifyRefreshToken, authenticate)
and the AuthController (register, login, refreshToken, logout,
forgotPassword, resetPassword), with the Prisma store modelled as explicit
record lists and `process.env` as an explicit configuration structure.
Time is milliseconds since epoch (`Date.now()`), modelled as `Nat`.
-/

namespace AuthCore

/-- The `type` field of a token payload: `'access' | 'refresh' | 'password-reset'`. -/
inductive TokenType
  | access
  | refresh
  | passwordReset
deriving DecidableEq, Repr

/-- A signed JWT as produced by `jwt.sign({userId, type}, key, {expiresIn})`:
it binds the payload, the issue and expiry instants, and the signing key.
Verification with key `k` succeeds exactly when the token was signed with `k`
(the signature is modelled as unforgeable). -/
structure Jwt where
  userId : String
  type : TokenType
  iat : Nat
  exp : Nat
  key : String
deriving DecidableEq, Repr

/-- A presented credential string: either a well-formed signed JWT or an
arbitrary malformed string. -/
inductive Token
  | signed (j : Jwt)
  | malformed (s : String)
deriving DecidableEq, Repr

/-- The signing key of a well-formed token, if any. -/
def Token.signingKey : Token → Option String
  | .signed j => some j.key
  | .malformed _ => none

/-- Internal failure of `jwt.verify`: `JsonWebTokenError` (tampered or wrong
key, or malformed) versus `TokenExpiredError`. -/
inductive VerifyError
  | invalidSignature
  | expired
deriving DecidableEq, Repr

/-- The decoded payload `{ userId, type }`. -/
structure TokenPayload where
  userId : String
  type : TokenType
deriving DecidableEq, Repr

/-- Model of `jwt.sign({userId, type}, key, {expiresIn: ttlMs})` at instant `now`. -/
def jwtSign (userId : String) (type : TokenType) (key : String) (ttlMs : Nat)
    (now : Nat) : Token :=
  .signed { userId := userId, type := type, iat := now, exp := now + ttlMs, key := key }

/-- Model of `jwt.verify(token, key)` at instant `now`: fails on a malformed token or a
key mismatch with `JsonWebTokenError`, and with `TokenExpiredError` once
`now` has reached the embedded expiry (the boundary instant itself is
already expired). -/
def jwtVerify (tok : Token) (key : String) (now : Nat) :
    Except VerifyError TokenPayload :=
  match tok with
  | .malformed _ => .error .invalidSignature
  | .signed j =>
      if j.key ≠ key then .error .invalidSignature
      else if j.exp ≤ now then .error .expired
      else .ok { userId := j.userId, type := j.type }

/-- The environment configuration consumed by the module:
`JWT_SECRET`, `JWT_REFRESH_SECRET`, and the optional lifetime settings
`JWT_EXPIRES_IN` / `JWT_REFRESH_EXPIRES_IN` (in ms; `none` when unset). -/
structure Env where
  jwtSecret : String
  jwtRefreshSecret : String
  jwtExpiresIn : Option Nat
  jwtRefreshExpiresIn : Option Nat
deriving DecidableEq, Repr

/-- Model of `process.env.JWT_EXPIRES_IN || '15m'` in ms. -/
def accessTtl (env : Env) : Nat := env.jwtExpiresIn.getD (15 * 60 * 1000)

/-- Model of `process.env.JWT_REFRESH_EXPIRES_IN || '7d'` in ms. -/
def refreshTtl (env : Env) : Nat :=
  env.jwtRefreshExpiresIn.getD (7 * 24 * 60 * 60 * 1000)

/-- The `{ accessToken, refreshToken }` pair returned by `generateTokens`. -/
structure TokenPair where
  accessToken : Token
  refreshToken : Token
deriving DecidableEq, Repr

/-- Model of `generateTokens(userId)`: signs the access half with `JWT_SECRET` and the
refresh half with `JWT_REFRESH_SECRET`. -/
def generateTokens (env : Env) (now : Nat) (userId : String) : TokenPair :=
  { accessToken := jwtSign userId .access env.jwtSecret (accessTtl env) now,
    refreshToken := jwtSign userId .refresh env.jwtRefreshSecret (refreshTtl env) now }

/-- Model of `verifyRefreshToken(token)`: `jwt.verify` with `JWT_REFRESH_SECRET`,
returning `null` on any verification error or when the payload type is not
`'refresh'`. -/
def verifyRefreshToken (env : Env) (now : Nat) (tok : Token) :
    Option TokenPayload :=
  match jwtVerify tok env.jwtRefreshSecret now with
  | .error _ => none
  | .ok payload => if payload.type ≠ .refresh then none else some payload

/-- Decidable equality of fallible results, so that concrete runs can be
checked by evaluation. -/
instance {ε α : Type} [DecidableEq ε] [DecidableEq α] :
    DecidableEq (Except ε α) :=
  fun a b =>
    match a, b with
    | .error e1, .error e2 =>
        match decEq e1 e2 with
        | .isTrue h => .isTrue (congrArg Except.error h)
        | .isFalse h => .isFalse (fun hc => h (Except.error.inj hc))
    | .error _, .ok _ => .isFalse (fun hc => Except.noConfusion hc)
    | .ok _, .error _ => .isFalse (fun hc => Except.noConfusion hc)
    | .ok a1, .ok a2 =>
        match decEq a1 a2 with
        | .isTrue h => .isTrue (congrArg Except.ok h)
        | .isFalse h => .isFalse (fun hc => h (Except.ok.inj hc))

/-- Model of `AppError(message, statusCode)`. -/
structure AppError where
  message : String
  status : Nat
deriving DecidableEq, Repr

/-- The `authenticate` middleware, token-checking part: `jwt.verify` with
`JWT_SECRET`, requiring payload type `'access'`; `JsonWebTokenError` maps to
`Invalid token` and `TokenExpiredError` to `Token expired`. -/
def verifyAccessToken (env : Env) (now : Nat) (tok : Token) :
    Except AppError TokenPayload :=
  match jwtVerify tok env.jwtSecret now with
  | .error .invalidSignature => .error ⟨"Invalid token", 401⟩
  | .error .expired => .error ⟨"Token expired", 401⟩
  | .ok payload =>
      if payload.type ≠ .access then .error ⟨"Invalid token type", 401⟩
      else .ok payload

/-- A `User` row (Principal): the fields the controller reads or writes.
`password` holds the bcrypt digest. -/
structure User where
  id : String
  email : String
  name : String
  password : String
deriving DecidableEq, Repr

/-- A `RefreshToken` row: `{ id, token, userId, expiresAt, createdAt }`. -/
structure RefreshRecord where
  id : Nat
  token : Token
  userId : String
  expiresAt : Nat
  createdAt : Nat
deriving DecidableEq, Repr

/-- A `PasswordReset` row: `{ id, token, userId, expiresAt, used }`. -/
structure ResetRecord where
  id : Nat
  token : Token
  userId : String
  expiresAt : Nat
  used : Bool
deriving DecidableEq, Repr

/-- The Prisma store: the three tables the controller touches, each in table
order (`create` appends). -/
structure DB where
  users : List User
  refreshTokens : List RefreshRecord
  passwordResets : List ResetRecord
deriving DecidableEq, Repr

/-- The Hash Provider is an external collaborator; `bcrypt.hash(secret, 10)`
is modelled as a deterministic injective tagging function and
`bcrypt.compare` as the matching check. -/
def bcryptHash (secret : String) : String := "bcrypt2b10" ++ secret

/-- Model of `bcrypt.compare(secret, digest)`. -/
def bcryptCompare (secret digest : String) : Bool := bcryptHash secret == digest

/-- Model of `prisma.user.findUnique({ where: { email } })`. -/
def findUserByEmail (db : DB) (email : String) : Option User :=
  db.users.find? (fun u => u.email == email)

/-- Model of `prisma.refreshToken.findFirst({ where: { token, userId,
expiresAt: { gt: now } } })`. -/
def findFirstRefresh (db : DB) (tok : Token) (uid : String) (now : Nat) :
    Option RefreshRecord :=
  db.refreshTokens.find? (fun r =>
    r.token == tok && r.userId == uid && now < r.expiresAt)

/-- Model of `prisma.passwordReset.findFirst({ where: { token, userId, used: false,
expiresAt: { gt: now } } })`. -/
def findFirstReset (db : DB) (tok : Token) (uid : String) (now : Nat) :
    Option ResetRecord :=
  db.passwordResets.find? (fun r =>
    r.token == tok && r.userId == uid && r.used == false && now < r.expiresAt)

/-- Model of `prisma.refreshToken.deleteMany({ where: { userId } })`. -/
def deleteManyRefresh (db : DB) (uid : String) : DB :=
  { db with refreshTokens := db.refreshTokens.filter (fun r => r.userId ≠ uid) }

/-- Model of `prisma.refreshToken.create({ data: { token, userId, expiresAt } })`;
`id` is the fresh row id and `createdAt` defaults to the insertion instant. -/
def createRefresh (db : DB) (rid : Nat) (tok : Token) (uid : String)
    (expiresAt now : Nat) : DB :=
  { db with refreshTokens :=
      db.refreshTokens ++ [{ id := rid, token := tok, userId := uid,
                             expiresAt := expiresAt, createdAt := now }] }

/-- The per-row effect of `prisma.refreshToken.update({ where: { id: rid },
data: { token, expiresAt } })`: the row with the matching id gets the new
token value and expiry, every other row is untouched. -/
def rotateRow (rid : Nat) (newTok : Token) (newExp : Nat)
    (r : RefreshRecord) : RefreshRecord :=
  if r.id = rid then { r with token := newTok, expiresAt := newExp } else r

/-- Model of `prisma.refreshToken.update({ where: { id: rid }, data: { token,
expiresAt } })`: an update keyed on the row id alone. -/
def updateRefreshById (db : DB) (rid : Nat) (newTok : Token) (newExp : Nat) :
    DB :=
  { db with refreshTokens := db.refreshTokens.map (rotateRow rid newTok newExp) }

/-- Model of `prisma.passwordReset.create({ data: { token, userId, expiresAt } })`
with `used` defaulting to `false`. -/
def createReset (db : DB) (rid : Nat) (tok : Token) (uid : String)
    (expiresAt : Nat) : DB :=
  { db with passwordResets :=
      db.passwordResets ++ [{ id := rid, token := tok, userId := uid,
                              expiresAt := expiresAt, used := false }] }

/-- Model of `prisma.user.update({ where: { id: uid }, data: { password: digest } })`. -/
def updateUserPassword (db : DB) (uid digest : String) : DB :=
  { db with users := db.users.map (fun u =>
      if u.id = uid then { u with password := digest } else u) }

/-- Model of `prisma.passwordReset.update({ where: { id: rid },
data: { used: true } })`. -/
def markResetUsed (db : DB) (rid : Nat) : DB :=
  { db with passwordResets := db.passwordResets.map (fun r =>
      if r.id = rid then { r with used := true } else r) }

/-- Stored refresh-token lifetime used by `register`, `login` and
`refreshToken`: the literal `7 * 24 * 60 * 60 * 1000` ms (7 days), written
directly in the controller and independent of the environment. -/
def storeRefreshTtlMs : Nat := 7 * 24 * 60 * 60 * 1000

/-- Stored reset-token lifetime used by `forgotPassword`: the literal
`60 * 60 * 1000` ms (1 hour). -/
def storeResetTtlMs : Nat := 60 * 60 * 1000

/-- The JSON body the controller sends: `success` plus the data message. -/
structure ApiResponse where
  success : Bool
  message : String
deriving DecidableEq, Repr

/-- Model of `AuthController.register`: reject a duplicate email with 409, hash the
password, create the user, generate the token pair, and store the refresh
half with a 7-day expiry. `uid` is the fresh user id and `rid` the fresh
refresh-row id. Returns the created user id with the pair. -/
def register (env : Env) (now : Nat) (uid : String) (rid : Nat) (db : DB)
    (email password name : String) :
    Except AppError (String × TokenPair) × DB :=
  match findUserByEmail db email with
  | some _ => (.error ⟨"User with this email already exists", 409⟩, db)
  | none =>
      let user : User := { id := uid, email := email, name := name,
                           password := bcryptHash password }
      let db1 : DB := { db with users := db.users ++ [user] }
      let pair := generateTokens env now uid
      let db2 := createRefresh db1 rid pair.refreshToken uid
        (now + storeRefreshTtlMs) now
      (.ok (uid, pair), db2)

/-- The store half of `AuthController.login` after a successful credential
check, first awaited call: `refreshToken.deleteMany({ where: { userId } })`. -/
def loginDeletePhase (db : DB) (uid : String) : DB :=
  deleteManyRefresh db uid

/-- The store half of `AuthController.login`, second awaited call:
`refreshToken.create(...)` with the new refresh value and a 7-day expiry. -/
def loginCreatePhase (db : DB) (rid : Nat) (tok : Token) (uid : String)
    (now : Nat) : DB :=
  createRefresh db rid tok uid (now + storeRefreshTtlMs) now

/-- Model of `AuthController.login`: look up the user by email, check the password
with bcrypt, generate the pair, then delete the old refresh rows and create
the new one — two separate store calls, in that order. -/
def login (env : Env) (now : Nat) (rid : Nat) (db : DB)
    (email password : String) : Except AppError (String × TokenPair) × DB :=
  match findUserByEmail db email with
  | none => (.error ⟨"Invalid email or password", 401⟩, db)
  | some user =>
      if bcryptCompare password user.password = false then
        (.error ⟨"Invalid email or password", 401⟩, db)
      else
        let pair := generateTokens env now user.id
        let db1 := loginDeletePhase db user.id
        let db2 := loginCreatePhase db1 rid pair.refreshToken user.id now
        (.ok (user.id, pair), db2)

/-- Read phase of `AuthController.refreshToken` (everything up to and
including the awaited `findFirst`): `verifyRefreshToken`, then the lookup of
a stored row matching the presented token, the payload's userId, and a
still-future stored expiry. Pure read, no store mutation. -/
def refreshLookup (env : Env) (now : Nat) (db : DB) (tok : Token) :
    Option (TokenPayload × RefreshRecord) :=
  match verifyRefreshToken env now tok with
  | none => none
  | some payload =>
      match findFirstRefresh db tok payload.userId now with
      | none => none
      | some stored => some (payload, stored)

/-- Write phase of `AuthController.refreshToken`: generate the new pair and
run `refreshToken.update({ where: { id: stored.id }, data: { token,
expiresAt } })` — the update is keyed on the row id read earlier, with no
condition on the row's current token value. -/
def refreshCommit (env : Env) (now : Nat) (db : DB) (payload : TokenPayload)
    (stored : RefreshRecord) : Except AppError TokenPair × DB :=
  let pair := generateTokens env now payload.userId
  let db2 := updateRefreshById db stored.id pair.refreshToken
    (now + storeRefreshTtlMs)
  (.ok pair, db2)

/-- Model of `AuthController.refreshToken` run in isolation: the read phase followed
immediately by the write phase; both failure exits throw
`AppError('Invalid refresh token', 401)`. -/
def refreshTokenCall (env : Env) (now : Nat) (db : DB) (tok : Token) :
    Except AppError TokenPair × DB :=
  match refreshLookup env now db tok with
  | none => (.error ⟨"Invalid refresh token", 401⟩, db)
  | some (payload, stored) => refreshCommit env now db payload stored

/-- Model of `AuthController.logout`: delete every refresh row of the authenticated
user; no-op when the request carries no user. -/
def logout (db : DB) (uid : Option String) : ApiResponse × DB :=
  match uid with
  | none => ({ success := true, message := "" }, db)
  | some uid => ({ success := true, message := "" }, deleteManyRefresh db uid)

/-- The constant body `forgotPassword` sends in both branches. -/
def forgotPasswordMessage : String :=
  "If the email exists, a reset link has been sent."

/-- Model of `AuthController.forgotPassword`: look up the user by email. When absent,
answer with the constant message and touch nothing. When present, sign a
`password-reset` token with `JWT_SECRET` and `expiresIn: '1h'`, store a
`PasswordReset` row with a 1-hour expiry, and answer with the same constant
message. -/
def forgotPassword (env : Env) (now : Nat) (rid : Nat) (db : DB)
    (email : String) : ApiResponse × DB :=
  match findUserByEmail db email with
  | none => ({ success := true, message := forgotPasswordMessage }, db)
  | some user =>
      let resetToken := jwtSign user.id .passwordReset env.jwtSecret
        storeResetTtlMs now
      let db1 := createReset db rid resetToken user.id (now + storeResetTtlMs)
      ({ success := true, message := forgotPasswordMessage }, db1)

/-- Read phase of `AuthController.resetPassword` (everything before the
`$transaction`): `jwt.verify` with `JWT_SECRET` (any verification error maps
to `Invalid or expired reset token`), the `password-reset` kind check (which
maps to the distinct message `Invalid reset token`), and the awaited
`findFirst` for a matching unused unexpired row. Pure read. -/
def resetLookup (env : Env) (now : Nat) (db : DB) (tok : Token) :
    Except AppError (TokenPayload × ResetRecord) :=
  match jwtVerify tok env.jwtSecret now with
  | .error _ => .error ⟨"Invalid or expired reset token", 400⟩
  | .ok payload =>
      if payload.type ≠ .passwordReset then
        .error ⟨"Invalid reset token", 400⟩
      else
        match findFirstReset db tok payload.userId now with
        | none => .error ⟨"Invalid or expired reset token", 400⟩
        | some resetRec => .ok (payload, resetRec)

/-- Write phase of `AuthController.resetPassword`: the
`prisma.$transaction([user.update, passwordReset.update])` — the new
password digest and the `used: true` flag are committed together, as one
atomic store call. -/
def resetCommit (db : DB) (uid digest : String) (rid : Nat) : DB :=
  markResetUsed (updateUserPassword db uid digest) rid

/-- Model of `AuthController.resetPassword` run in isolation: the read phase followed
immediately by the transactional write phase. -/
def resetPassword (env : Env) (now : Nat) (db : DB) (tok : Token)
    (password : String) : Except AppError ApiResponse × DB :=
  match resetLookup env now db tok with
  | .error e => (.error e, db)
  | .ok (payload, resetRec) =>
      let db1 := resetCommit db payload.userId (bcryptHash password) resetRec.id
      (.ok { success := true,
             message := "Password has been reset successfully." }, db1)

/-- Interleaved execution of two `refreshToken` calls presenting the same
credential, in the schedule where both awaited `findFirst` reads complete
against the same initial store before either awaited `update` runs; caller A
then commits first and caller B second. Each phase is exactly one awaited
store call of the source, so this is a schedule the event loop can realize.
Returns (A's response, B's response, final store). -/
def refreshRace (env : Env) (nowA nowB : Nat) (db : DB) (tok : Token) :
    Except AppError TokenPair × Except AppError TokenPair × DB :=
  match refreshLookup env nowA db tok, refreshLookup env nowB db tok with
  | none, none =>
      (.error ⟨"Invalid refresh token", 401⟩,
       .error ⟨"Invalid refresh token", 401⟩, db)
  | none, some (pB, sB) =>
      let (rB, db1) := refreshCommit env nowB db pB sB
      (.error ⟨"Invalid refresh token", 401⟩, rB, db1)
  | some (pA, sA), none =>
      let (rA, db1) := refreshCommit env nowA db pA sA
      (rA, .error ⟨"Invalid refresh token", 401⟩, db1)
  | some (pA, sA), some (pB, sB) =>
      let (rA, db1) := refreshCommit env nowA db pA sA
      let (rB, db2) := refreshCommit env nowB db1 pB sB
      (rA, rB, db2)

/-- Interleaved execution of the store halves of two `login` calls for the
same principal, in the schedule where both awaited `deleteMany` calls run
before either awaited `create`: delete A, delete B, create A, create B. -/
def loginStoreRace (db : DB) (uid : String) (ridA ridB : Nat)
    (tokA tokB : Token) (nowA nowB : Nat) : DB :=
  loginCreatePhase
    (loginCreatePhase
      (loginDeletePhase (loginDeletePhase db uid) uid)
      ridA tokA uid nowA)
    ridB tokB uid nowB

/-- Interleaved execution of two `resetPassword` calls presenting the same
credential, in the schedule where both awaited `findFirst` reads complete
against the same initial store before either `$transaction` commits; caller
A commits first and caller B second. -/
def resetRace (env : Env) (nowA nowB : Nat) (db : DB) (tok : Token)
    (pwA pwB : String) :
    Except AppError ApiResponse × Except AppError ApiResponse × DB :=
  let okBody : ApiResponse :=
    { success := true, message := "Password has been reset successfully." }
  match resetLookup env nowA db tok, resetLookup env nowB db tok with
  | .error eA, .error eB => (.error eA, .error eB, db)
  | .error eA, .ok (pB, rB) =>
      (.error eA, .ok okBody, resetCommit db pB.userId (bcryptHash pwB) rB.id)
  | .ok (pA, rA), .error eB =>
      (.ok okBody, .error eB, resetCommit db pA.userId (bcryptHash pwA) rA.id)
  | .ok (pA, rA), .ok (pB, rB) =>
      let db1 := resetCommit db pA.userId (bcryptHash pwA) rA.id
      let db2 := resetCommit db1 pB.userId (bcryptHash pwB) rB.id
      (.ok okBody, .ok okBody, db2)

/-- The expiry embedded in a well-formed signed credential. -/
def Token.expiry : Token → Option Nat
  | .signed j => some j.exp
  | .malformed _ => none

/-- Concrete configuration used by the witnesses and counterexamples:
distinct access and refresh secrets, lifetime settings left unset. -/
def exEnv : Env :=
  { jwtSecret := "access-secret", jwtRefreshSecret := "refresh-secret",
    jwtExpiresIn := none, jwtRefreshExpiresIn := none }

/-- Concrete stored user. -/
def exUser : User :=
  { id := "u1", email := "a@x.com", name := "Alice",
    password := bcryptHash "pw1" }

/-- A refresh credential for `exUser`, signed with the refresh secret,
issued at 0, expiring at 1000000. -/
def exRefreshJwt : Token :=
  .signed { userId := "u1", type := .refresh, iat := 0, exp := 1000000,
            key := "refresh-secret" }

/-- A password-reset credential for `exUser`, signed (as `forgotPassword`
does) with `JWT_SECRET`, issued at 0, expiring at 1000000. -/
def exResetJwt : Token :=
  .signed { userId := "u1", type := .passwordReset, iat := 0, exp := 1000000,
            key := "access-secret" }

/-- An access credential for `exUser`, signed with `JWT_SECRET`. -/
def exAccessJwt : Token :=
  .signed { userId := "u1", type := .access, iat := 0, exp := 1000000,
            key := "access-secret" }

/-- Concrete store: one user, one live refresh row holding `exRefreshJwt`,
one unused unexpired reset row holding `exResetJwt`. -/
def exDB : DB :=
  { users := [exUser],
    refreshTokens := [{ id := 1, token := exRefreshJwt, userId := "u1",
                        expiresAt := 1000000, createdAt := 0 }],
    passwordResets := [{ id := 1, token := exResetJwt, userId := "u1",
                         expiresAt := 1000000, used := false }] }

/-- Concrete store with one user and no outstanding rows: the base state of
the duplicate-reset scenario. -/
def baseResetDB : DB :=
  { users := [exUser], refreshTokens := [], passwordResets := [] }

/-- Store after two `forgotPassword` calls for the same user at the same
instant 10: signing is deterministic, so the two stored ResetRecords (ids 1
and 2) carry the **identical** signed credential. -/
def dupResetDB : DB :=
  (forgotPassword exEnv 10 2
    ((forgotPassword exEnv 10 1 baseResetDB "a@x.com").2) "a@x.com").2

/-- The single credential value both rows of `dupResetDB` carry: exactly
what `forgotPassword` signs at instant 10. -/
def dupResetJwt : Token :=
  jwtSign "u1" .passwordReset "access-secret" storeResetTtlMs 10

/-! ## Helper lemmas about the id-keyed rotation rewrite -/

/-- The rotation rewrite never changes a row's id. -/
theorem rotateRow_id (rid : Nat) (t : Token) (e : Nat) (r : RefreshRecord) :
    (rotateRow rid t e r).id = r.id := by
  unfold rotateRow; split <;> rfl

/-- The rotation rewrite never changes a row's principal binding. -/
theorem rotateRow_userId (rid : Nat) (t : Token) (e : Nat)
    (r : RefreshRecord) : (rotateRow rid t e r).userId = r.userId := by
  unfold rotateRow; split <;> rfl

/-- The rotation rewrite never changes a row's creation instant. -/
theorem rotateRow_createdAt (rid : Nat) (t : Token) (e : Nat)
    (r : RefreshRecord) : (rotateRow rid t e r).createdAt = r.createdAt := by
  unfold rotateRow; split <;> rfl

/-- A row whose id differs from the update key is left untouched. -/
theorem rotateRow_of_ne (rid : Nat) (t : Token) (e : Nat)
    (r : RefreshRecord) (h : r.id ≠ rid) : rotateRow rid t e r = r := by
  unfold rotateRow; exact if_neg h

/-- The row whose id matches the update key gets the new value and expiry. -/
theorem rotateRow_of_eq (rid : Nat) (t : Token) (e : Nat)
    (r : RefreshRecord) (h : r.id = rid) :
    rotateRow rid t e r = { r with token := t, expiresAt := e } := by
  unfold rotateRow; exact if_pos h

/-! ## C1 — refresh rotation is not a compare-and-swap -/

/-- **C1, counterexample.** The claim says that of two concurrent `refresh`
calls presenting the same still-valid credential exactly one succeeds and
the loser fails with `InvalidRefreshToken`, because the write is a
compare-and-swap on the value read. On the concrete store `exDB` holding the
valid credential `exRefreshJwt`, the schedule in which both calls complete
their `findFirst` before either `update` runs makes **both** calls succeed
(and return different pairs): the update is keyed on the row id alone, so
the loser is silently overwritten instead of failing. -/
theorem refresh_rotation_cas_counterexample :
    (refreshRace exEnv 100 101 exDB exRefreshJwt).1.isOk = true ∧
    (refreshRace exEnv 100 101 exDB exRefreshJwt).2.1.isOk = true ∧
    (refreshRace exEnv 100 101 exDB exRefreshJwt).1 ≠
      (refreshRace exEnv 100 101 exDB exRefreshJwt).2.1 :=
  ⟨by decide, by decide, by decide⟩

/-- **C1, amended.** The rotation write is
`update({ where: { id: stored.id } })`: it is keyed on the row id read in
the lookup step and carries no condition on the row's current token value.
Consequently, when two concurrent `refresh` calls present the same
credential and both lookups complete (reading the same row) before either
write runs, **both** calls succeed, and the row afterwards holds the second
writer's new value and expiry — the first caller's pair has been silently
overwritten rather than the loser failing with `InvalidRefreshToken`. -/
theorem refresh_rotation_update_by_id (env : Env) (nowA nowB : Nat)
    (db : DB) (tok : Token) (pA pB : TokenPayload) (sA sB : RefreshRecord)
    (hA : refreshLookup env nowA db tok = some (pA, sA))
    (hB : refreshLookup env nowB db tok = some (pB, sB))
    (hs : sB.id = sA.id) :
    (refreshRace env nowA nowB db tok).1 =
      .ok (generateTokens env nowA pA.userId) ∧
    (refreshRace env nowA nowB db tok).2.1 =
      .ok (generateTokens env nowB pB.userId) ∧
    (∀ r ∈ (refreshRace env nowA nowB db tok).2.2.refreshTokens,
      r.id = sA.id →
        r.token = (generateTokens env nowB pB.userId).refreshToken ∧
        r.expiresAt = nowB + storeRefreshTtlMs) := by
  unfold refreshRace
  rw [hA, hB]
  refine ⟨rfl, rfl, ?_⟩
  intro r hr hid
  simp only [refreshCommit, updateRefreshById] at hr
  obtain ⟨r1, hr1, rfl⟩ := List.mem_map.1 hr
  obtain ⟨r0, _, rfl⟩ := List.mem_map.1 hr1
  rw [rotateRow_id, rotateRow_id] at hid
  rw [rotateRow_of_eq _ _ _ _ (by rw [rotateRow_id]; rw [hid, hs])]
  exact ⟨rfl, rfl⟩

/-- Closed witness for `refresh_rotation_update_by_id` at the concrete
store `exDB`. -/
theorem refresh_rotation_update_by_id_witness :
    (refreshLookup exEnv 102 exDB exRefreshJwt =
        some (⟨"u1", .refresh⟩, ⟨1, exRefreshJwt, "u1", 1000000, 0⟩) ∧
      refreshLookup exEnv 103 exDB exRefreshJwt =
        some (⟨"u1", .refresh⟩, ⟨1, exRefreshJwt, "u1", 1000000, 0⟩)) ∧
    ((refreshRace exEnv 102 103 exDB exRefreshJwt).1 =
        .ok (generateTokens exEnv 102 "u1") ∧
      (refreshRace exEnv 102 103 exDB exRefreshJwt).2.1 =
        .ok (generateTokens exEnv 103 "u1") ∧
      (∀ r ∈ (refreshRace exEnv 102 103 exDB exRefreshJwt).2.2.refreshTokens,
        r.id = (1 : Nat) →
          r.token = (generateTokens exEnv 103 "u1").refreshToken ∧
          r.expiresAt = 103 + storeRefreshTtlMs)) :=
  ⟨⟨by decide, by decide⟩,
   refresh_rotation_update_by_id exEnv 102 103 exDB exRefreshJwt
     ⟨"u1", .refresh⟩ ⟨"u1", .refresh⟩ ⟨1, exRefreshJwt, "u1", 1000000, 0⟩
     ⟨1, exRefreshJwt, "u1", 1000000, 0⟩ (by decide) (by decide) rfl⟩

/-! ## C2 — issuance does not atomically replace the refresh record -/

/-- Rows for a principal never survive the delete phase: filtering the
deleted list for that principal yields nothing. -/
theorem filter_after_delete (l : List RefreshRecord) (uid : String) :
    (l.filter (fun r => r.userId ≠ uid)).filter (fun r => r.userId == uid)
      = [] := by
  induction l with
  | nil => rfl
  | cons r l ih =>
      by_cases h : r.userId = uid <;> simp [List.filter, h, ih]

/-- **C2, counterexample.** The claim says issuance replaces the principal's
RefreshRecord as a single atomic operation, so that every operation
preserves "at most one live RefreshRecord per principal at any instant". In
the source, `login` performs `deleteMany` and `create` as two separate
awaited store calls with no transaction. In the schedule where two
concurrent logins for `"u1"` both run their `deleteMany` before either
`create`, the final store holds **two** RefreshRecords for `"u1"`. -/
theorem issue_pair_atomic_replace_counterexample :
    ((loginStoreRace exDB "u1" 2 3
          (jwtSign "u1" .refresh "refresh-secret" 100 10)
          (jwtSign "u1" .refresh "refresh-secret" 100 11) 10 11).refreshTokens.filter
        (fun r => r.userId == "u1")).length = 2 := by
  decide

/-- **C2, amended.** `login` deletes the principal's refresh rows and then
inserts the new one as two separate store operations (and `register` only
inserts, for a freshly created principal). Run in isolation, a successful
login still leaves exactly one RefreshRecord for the principal — the newly
created row — but the replacement is not atomic, and interleaved concurrent
logins can leave two rows (see the counterexample). -/
theorem login_sequential_single_record (env : Env) (now rid : Nat) (db : DB)
    (email password uid : String) (pair : TokenPair)
    (h : (login env now rid db email password).1 = .ok (uid, pair)) :
    ((login env now rid db email password).2.refreshTokens.filter
        (fun r => r.userId == uid)) =
      [{ id := rid, token := pair.refreshToken, userId := uid,
         expiresAt := now + storeRefreshTtlMs, createdAt := now }] := by
  unfold login at h ⊢
  cases hu : findUserByEmail db email with
  | none => rw [hu] at h; exact absurd h (by simp)
  | some user =>
      rw [hu] at h
      dsimp only at h ⊢
      by_cases hp : bcryptCompare password user.password = false
      · rw [if_pos hp] at h; exact absurd h (by simp)
      · rw [if_neg hp] at h ⊢
        simp only [Except.ok.injEq, Prod.mk.injEq] at h
        obtain ⟨huid, hpair⟩ := h
        subst huid hpair
        simp only [loginCreatePhase, loginDeletePhase, createRefresh,
          deleteManyRefresh, List.filter_append, filter_after_delete]
        simp

/-- Closed witness for `login_sequential_single_record`: a login for the
stored user `exUser` with the correct password. -/
theorem login_sequential_single_record_witness :
    (login exEnv 50 7 exDB "a@x.com" "pw1").1 =
      .ok ("u1", generateTokens exEnv 50 "u1") ∧
    ((login exEnv 50 7 exDB "a@x.com" "pw1").2.refreshTokens.filter
        (fun r => r.userId == "u1")) =
      [{ id := 7, token := (generateTokens exEnv 50 "u1").refreshToken,
         userId := "u1", expiresAt := 50 + storeRefreshTtlMs,
         createdAt := 50 }] :=
  ⟨by decide,
   login_sequential_single_record exEnv 50 7 exDB "a@x.com" "pw1" "u1"
     (generateTokens exEnv 50 "u1") (by decide)⟩

/-! ## C3 — reset credentials are single-use per record, not per value -/

/-- **C3, counterexample.** The claim says that once a matching ResetRecord's
`used` flag is true, every later redemption attempt with the same credential
fails, even before its time expiry. In the reachable store `dupResetDB` —
two `forgotPassword` calls for the same user at the same instant, which sign
the **identical** credential `dupResetJwt` into two rows — the first
redemption succeeds and leaves a used record carrying the credential, yet a
second redemption with the very same credential, still well before the
expiry 3600010, finds the other unused row and **succeeds**. -/
theorem reset_single_use_counterexample :
    (resetPassword exEnv 20 dupResetDB dupResetJwt "pwA").1.isOk = true ∧
    ((resetPassword exEnv 20 dupResetDB dupResetJwt
        "pwA").2.passwordResets.any
      (fun r => r.token == dupResetJwt && r.used)) = true ∧
    (resetPassword exEnv 30
        (resetPassword exEnv 20 dupResetDB dupResetJwt "pwA").2 dupResetJwt
        "pwB").1.isOk = true ∧
    dupResetJwt.expiry = some 3600010 ∧
    (30 : Nat) < 3600010 :=
  ⟨by decide, by decide, by decide, by decide, by decide⟩

/-- **C3, amended.** Redemption is single-use **per ResetRecord**: a
successful `resetPassword` marks exactly the record it found as used. When
at most one ResetRecord in the store carries the presented credential's
value, the original property holds in full: the first redemption with a
valid, unused, unexpired matching record succeeds and updates the
principal's credential hash, afterwards every record carrying the credential
has `used = true`, and every later redemption attempt with the same
credential — at any instant, in particular before its time expiry — fails
with `Invalid or expired reset token`. (When duplicate rows carry the
identical value, reachable by same-instant reset requests, the credential is
redeemable once per row; see the counterexample.) -/
theorem reset_single_use_unique_value (env : Env) (now : Nat) (db : DB)
    (j : Jwt) (rec : ResetRecord) (password : String)
    (huniq : ∀ r ∈ db.passwordResets, r.token = .signed j → r = rec)
    (hmem : rec ∈ db.passwordResets)
    (hkey : j.key = env.jwtSecret)
    (htype : j.type = .passwordReset)
    (hexp : now < j.exp)
    (hrtok : rec.token = .signed j)
    (hruid : rec.userId = j.userId)
    (hrused : rec.used = false)
    (hrexp : now < rec.expiresAt) :
    (resetPassword env now db (.signed j) password).1 =
      .ok ⟨true, "Password has been reset successfully."⟩ ∧
    (resetPassword env now db (.signed j) password).2.users =
      db.users.map (fun u =>
        if u.id = j.userId then { u with password := bcryptHash password }
        else u) ∧
    (∀ r ∈ (resetPassword env now db (.signed j) password).2.passwordResets,
      r.token = .signed j → r.used = true) ∧
    (∀ now2 pw2,
      (resetPassword env now2
          (resetPassword env now db (.signed j) password).2 (.signed j)
          pw2).1 =
        .error ⟨"Invalid or expired reset token", 400⟩) := by
  have hver : jwtVerify (.signed j) env.jwtSecret now =
      .ok ⟨j.userId, j.type⟩ := by
    unfold jwtVerify
    dsimp only
    rw [if_neg (by simp [hkey]), if_neg (by omega)]
  have hfound : findFirstReset db (.signed j) j.userId now = some rec := by
    cases hf : findFirstReset db (.signed j) j.userId now with
    | none =>
        exfalso
        unfold findFirstReset at hf
        have hnone := List.find?_eq_none.1 hf rec hmem
        apply hnone
        simp [hrtok, hruid, hrused, hrexp]
    | some y =>
        unfold findFirstReset at hf
        have hy := List.find?_some hf
        have hymem := List.mem_of_find?_eq_some hf
        simp only [Bool.and_eq_true, beq_iff_eq, decide_eq_true_eq] at hy
        rw [huniq y hymem hy.1.1.1]
  have hlook : resetLookup env now db (.signed j) =
      .ok (⟨j.userId, j.type⟩, rec) := by
    unfold resetLookup
    rw [hver]
    dsimp only
    rw [if_neg (by simp [htype]), hfound]
  have hmain : resetPassword env now db (.signed j) password =
      (.ok ⟨true, "Password has been reset successfully."⟩,
       resetCommit db j.userId (bcryptHash password) rec.id) := by
    unfold resetPassword
    rw [hlook]
  have hcommitResets : (resetCommit db j.userId (bcryptHash password)
      rec.id).passwordResets =
      db.passwordResets.map (fun r =>
        if r.id = rec.id then { r with used := true } else r) := rfl
  refine ⟨by rw [hmain], by rw [hmain]; rfl, ?_, ?_⟩
  · rw [hmain]
    intro r hr hrtok2
    rw [hcommitResets] at hr
    obtain ⟨r0, hr0mem, rfl⟩ := List.mem_map.1 hr
    by_cases hid : r0.id = rec.id
    · rw [if_pos hid]
    · rw [if_neg hid] at hrtok2
      exact absurd (congrArg ResetRecord.id (huniq r0 hr0mem hrtok2)) hid
  · intro now2 pw2
    rw [hmain]
    unfold resetPassword resetLookup jwtVerify
    dsimp only
    rw [if_neg (by simp [hkey])]
    by_cases h2 : j.exp ≤ now2
    · rw [if_pos h2]
    · rw [if_neg h2]
      dsimp only
      rw [if_neg (by simp [htype])]
      have hfind2 : findFirstReset
          (resetCommit db j.userId (bcryptHash password) rec.id) (.signed j)
          j.userId now2 = none := by
        unfold findFirstReset
        rw [hcommitResets, List.find?_eq_none]
        intro x hx
        obtain ⟨r0, hr0mem, rfl⟩ := List.mem_map.1 hx
        by_cases hid : r0.id = rec.id
        · rw [if_pos hid]
          simp
        · rw [if_neg hid]
          intro hp
          simp only [Bool.and_eq_true, beq_iff_eq, decide_eq_true_eq] at hp
          exact hid (congrArg ResetRecord.id (huniq r0 hr0mem hp.1.1.1))
      rw [hfind2]

/-- Closed witness for `reset_single_use_unique_value` on the concrete
store `exDB`, whose single ResetRecord carries `exResetJwt`. -/
theorem reset_single_use_unique_value_witness :
    ((∀ r ∈ exDB.passwordResets,
        r.token = exResetJwt →
        r = (⟨1, exResetJwt, "u1", 1000000, false⟩ : ResetRecord)) ∧
      (⟨1, exResetJwt, "u1", 1000000, false⟩ : ResetRecord) ∈
        exDB.passwordResets) ∧
    ((resetPassword exEnv 100 exDB exResetJwt "newpw1").1 =
        .ok ⟨true, "Password has been reset successfully."⟩ ∧
      (resetPassword exEnv 100 exDB exResetJwt "newpw1").2.users =
        exDB.users.map (fun u =>
          if u.id = "u1" then { u with password := bcryptHash "newpw1" }
          else u) ∧
      (∀ r ∈ (resetPassword exEnv 100 exDB exResetJwt
          "newpw1").2.passwordResets,
        r.token = exResetJwt → r.used = true) ∧
      (∀ now2 pw2,
        (resetPassword exEnv now2
            (resetPassword exEnv 100 exDB exResetJwt "newpw1").2 exResetJwt
            pw2).1 =
          .error ⟨"Invalid or expired reset token", 400⟩)) :=
  ⟨⟨by decide, by decide⟩,
   reset_single_use_unique_value exEnv 100 exDB
     ⟨"u1", .passwordReset, 0, 1000000, "access-secret"⟩
     ⟨1, exResetJwt, "u1", 1000000, false⟩ "newpw1" (by decide) (by decide)
     rfl rfl (by decide) rfl rfl rfl (by decide)⟩

/-! ## C4 — the reset credential is signed with the access key -/

/-- **C4, counterexample.** The claim says the password-reset credential is
signed with the refresh/reset-kind key or with its own third key, never with
the access key. With the concrete configuration `exEnv` (access key
distinct from refresh key), the ResetRecord that `forgotPassword` stores for
the existing user carries a credential signed with `"access-secret"` — the
very key the access credential of `generateTokens` uses, and not the refresh
key. -/
theorem reset_signing_key_counterexample :
    (forgotPassword exEnv 100 5 exDB "a@x.com").2.passwordResets =
      exDB.passwordResets ++
        [⟨5, .signed ⟨"u1", .passwordReset, 100, 100 + 3600000,
            "access-secret"⟩, "u1", 100 + 3600000, false⟩] ∧
    exEnv.jwtSecret = "access-secret" ∧
    (generateTokens exEnv 100 "u1").accessToken.signingKey =
      some "access-secret" ∧
    exEnv.jwtSecret ≠ exEnv.jwtRefreshSecret :=
  ⟨by decide, rfl, rfl, by decide⟩

/-- **C4, amended.** Access and refresh credentials are signed with the two
distinct configured secrets (`JWT_SECRET` and `JWT_REFRESH_SECRET`
respectively), but the password-reset credential is signed with
`JWT_SECRET` — the **access** key, not the refresh/reset-kind key nor a
third key — so compromise of the access key also forges reset
credentials. -/
theorem signing_keys_amended (env : Env) (now rid : Nat) (db : DB)
    (email uid : String) (user : User)
    (h : findUserByEmail db email = some user) :
    (generateTokens env now uid).accessToken.signingKey =
      some env.jwtSecret ∧
    (generateTokens env now uid).refreshToken.signingKey =
      some env.jwtRefreshSecret ∧
    (forgotPassword env now rid db email).2.passwordResets.getLast? =
      some { id := rid,
             token := jwtSign user.id .passwordReset env.jwtSecret
               storeResetTtlMs now,
             userId := user.id, expiresAt := now + storeResetTtlMs,
             used := false } ∧
    (jwtSign user.id .passwordReset env.jwtSecret storeResetTtlMs
        now).signingKey = some env.jwtSecret := by
  refine ⟨rfl, rfl, ?_, rfl⟩
  unfold forgotPassword
  rw [h]
  dsimp only
  exact List.getLast?_concat _

/-- Closed witness for `signing_keys_amended` on the concrete store. -/
theorem signing_keys_amended_witness :
    findUserByEmail exDB "a@x.com" = some exUser ∧
    ((generateTokens exEnv 200 "u1").accessToken.signingKey =
        some exEnv.jwtSecret ∧
      (generateTokens exEnv 200 "u1").refreshToken.signingKey =
        some exEnv.jwtRefreshSecret ∧
      (forgotPassword exEnv 200 6 exDB "a@x.com").2.passwordResets.getLast? =
        some { id := 6,
               token := jwtSign exUser.id .passwordReset exEnv.jwtSecret
                 storeResetTtlMs 200,
               userId := exUser.id, expiresAt := 200 + storeResetTtlMs,
               used := false } ∧
      (jwtSign exUser.id .passwordReset exEnv.jwtSecret storeResetTtlMs
          200).signingKey = some exEnv.jwtSecret) :=
  ⟨by decide,
   signing_keys_amended exEnv 200 6 exDB "a@x.com" "u1" exUser (by decide)⟩

/-! ## C5 — the reset lookup is outside the transaction -/

/-- **C5, counterexample.** The claim says the lookup of the matching
ResetRecord, the principal-hash update and the `used` flag update all occur
in one atomic transaction. If that held, two interleaved redemptions of the
same credential could not both pass the `used=false` check; but in the
source the `findFirst` is a separate awaited call before the
`$transaction`, and in the schedule where both lookups read the initial
store before either transaction commits, **both** calls on the concrete
store `exDB` succeed. -/
theorem redeem_reset_atomicity_counterexample :
    (resetRace exEnv 100 101 exDB exResetJwt "pwA" "pwB").1.isOk = true ∧
    (resetRace exEnv 100 101 exDB exResetJwt "pwA" "pwB").2.1.isOk = true :=
  ⟨by decide, by decide⟩

/-- **C5, amended.** Only the principal-hash update and the `used` flag
update are transactional: they commit together, and on any failure of
`resetPassword` the store — Principal and ResetRecord included — is
completely unchanged. The lookup, however, runs before and outside the
transaction, so two interleaved redemptions of the same credential whose
lookups both precede either commit both succeed. -/
theorem redeem_reset_partial_atomicity (env : Env) (nowA nowB : Nat)
    (db : DB) (tok : Token) (pwA pwB : String) (pA pB : TokenPayload)
    (rA rB : ResetRecord)
    (hA : resetLookup env nowA db tok = .ok (pA, rA))
    (hB : resetLookup env nowB db tok = .ok (pB, rB)) :
    (∀ now2 db2 tok2 pw2 e,
      (resetPassword env now2 db2 tok2 pw2).1 = .error e →
      (resetPassword env now2 db2 tok2 pw2).2 = db2) ∧
    (resetRace env nowA nowB db tok pwA pwB).1.isOk = true ∧
    (resetRace env nowA nowB db tok pwA pwB).2.1.isOk = true ∧
    (resetRace env nowA nowB db tok pwA pwB).2.2 =
      resetCommit (resetCommit db pA.userId (bcryptHash pwA) rA.id)
        pB.userId (bcryptHash pwB) rB.id := by
  refine ⟨?_, ?_, ?_, ?_⟩
  · intro now2 db2 tok2 pw2 e he
    unfold resetPassword at he ⊢
    cases hl : resetLookup env now2 db2 tok2 with
    | error e2 => rfl
    | ok pr =>
        rw [hl] at he
        obtain ⟨p2, r2⟩ := pr
        exact absurd he (by simp)
  · unfold resetRace; rw [hA, hB]; rfl
  · unfold resetRace; rw [hA, hB]; rfl
  · unfold resetRace; rw [hA, hB]

/-- Closed witness for `redeem_reset_partial_atomicity` at the concrete
store `exDB`. -/
theorem redeem_reset_partial_atomicity_witness :
    (resetLookup exEnv 102 exDB exResetJwt =
        .ok (⟨"u1", .passwordReset⟩, ⟨1, exResetJwt, "u1", 1000000, false⟩) ∧
      resetLookup exEnv 103 exDB exResetJwt =
        .ok (⟨"u1", .passwordReset⟩, ⟨1, exResetJwt, "u1", 1000000, false⟩)) ∧
    ((∀ now2 db2 tok2 pw2 e,
        (resetPassword exEnv now2 db2 tok2 pw2).1 = .error e →
        (resetPassword exEnv now2 db2 tok2 pw2).2 = db2) ∧
      (resetRace exEnv 102 103 exDB exResetJwt "npwA" "npwB").1.isOk = true ∧
      (resetRace exEnv 102 103 exDB exResetJwt "npwA" "npwB").2.1.isOk =
        true ∧
      (resetRace exEnv 102 103 exDB exResetJwt "npwA" "npwB").2.2 =
        resetCommit (resetCommit exDB "u1" (bcryptHash "npwA") 1) "u1"
          (bcryptHash "npwB") 1) :=
  ⟨⟨by decide, by decide⟩,
   redeem_reset_partial_atomicity exEnv 102 103 exDB exResetJwt "npwA"
     "npwB" ⟨"u1", .passwordReset⟩ ⟨"u1", .passwordReset⟩
     ⟨1, exResetJwt, "u1", 1000000, false⟩
     ⟨1, exResetJwt, "u1", 1000000, false⟩ (by decide) (by decide)⟩

/-! ## C6 — requestReset has a constant-shape outcome -/

/-- **C6.** For every email, `forgotPassword` returns the very same body —
`success` with the constant message — whether or not a user with that email
exists, so the two runs are indistinguishable to the caller; and when no
such user exists the call performs no store mutation at all. -/
theorem forgot_password_uniform_response (env : Env) (now rid : Nat)
    (db : DB) (email : String) :
    (forgotPassword env now rid db email).1 =
      { success := true, message := forgotPasswordMessage } ∧
    (findUserByEmail db email = none →
      (forgotPassword env now rid db email).2 = db) := by
  unfold forgotPassword
  cases h : findUserByEmail db email with
  | none => exact ⟨rfl, fun _ => rfl⟩
  | some user => exact ⟨rfl, fun hc => nomatch hc⟩

/-- Closed witness for `forgot_password_uniform_response` at an email with
no matching user. -/
theorem forgot_password_uniform_response_witness :
    (forgotPassword exEnv 100 9 exDB "z@x.com").1 =
      { success := true, message := forgotPasswordMessage } ∧
    (forgotPassword exEnv 100 9 exDB "z@x.com").2 = exDB :=
  ⟨(forgot_password_uniform_response exEnv 100 9 exDB "z@x.com").1,
   (forgot_password_uniform_response exEnv 100 9 exDB "z@x.com").2
     (by decide)⟩

/-! ## C7 — error collapsing holds for refresh, not fully for reset -/

/-- Every failure of the reset read phase carries one of exactly two
messages: the collapsed `Invalid or expired reset token`, or the distinct
`Invalid reset token` of the kind check. -/
theorem resetLookup_error_cases (env : Env) (now : Nat) (db : DB)
    (tok : Token) (e : AppError)
    (h : resetLookup env now db tok = .error e) :
    e = ⟨"Invalid or expired reset token", 400⟩ ∨
      e = ⟨"Invalid reset token", 400⟩ := by
  unfold resetLookup at h
  cases hv : jwtVerify tok env.jwtSecret now with
  | error e2 =>
      rw [hv] at h
      exact .inl (Except.error.inj h).symm
  | ok payload =>
      rw [hv] at h
      dsimp only at h
      by_cases ht : payload.type ≠ .passwordReset
      · rw [if_pos ht] at h
        exact .inr (Except.error.inj h).symm
      · rw [if_neg ht] at h
        cases hf : findFirstReset db tok payload.userId now with
        | none => rw [hf] at h; exact .inl (Except.error.inj h).symm
        | some r => rw [hf] at h; cases h

/-- **C7, counterexample.** The claim says every failure path of
`resetPassword` returns the single external code
`InvalidOrExpiredResetToken`. Presenting a well-signed credential of the
wrong kind — here the ordinary access token `exAccessJwt`, which verifies
under `JWT_SECRET` — fails with the **different** message
`Invalid reset token`, so the caller can tell the wrong-kind failure apart
from the signature and store-mismatch failures. -/
theorem reset_error_collapsing_counterexample :
    (resetPassword exEnv 100 exDB exAccessJwt "newpassword1").1 =
      .error ⟨"Invalid reset token", 400⟩ ∧
    ("Invalid reset token" : String) ≠ "Invalid or expired reset token" :=
  ⟨by decide, by decide⟩

/-- **C7, amended.** Every failure path of `refreshToken` — invalid
signature, wrong kind, expired credential, store mismatch — returns the
single external error `Invalid refresh token` (401). Every failure path of
`resetPassword` returns `Invalid or expired reset token` (400), **except**
the wrong-kind path: a credential that verifies under `JWT_SECRET` but
whose kind is not `password-reset` is rejected with the distinct message
`Invalid reset token` (400), which the caller can distinguish. -/
theorem error_collapsing_amended :
    (∀ env now db tok e,
      (refreshTokenCall env now db tok).1 = .error e →
      e = ⟨"Invalid refresh token", 401⟩) ∧
    (∀ env now db tok pw e,
      (resetPassword env now db tok pw).1 = .error e →
      e = ⟨"Invalid or expired reset token", 400⟩ ∨
        e = ⟨"Invalid reset token", 400⟩) ∧
    (∀ env now db tok pw payload,
      jwtVerify tok env.jwtSecret now = .ok payload →
      payload.type ≠ .passwordReset →
      (resetPassword env now db tok pw).1 =
        .error ⟨"Invalid reset token", 400⟩) := by
  refine ⟨?_, ?_, ?_⟩
  · intro env now db tok e h
    unfold refreshTokenCall at h
    cases hl : refreshLookup env now db tok with
    | none => rw [hl] at h; exact (Except.error.inj h).symm
    | some pr =>
        obtain ⟨payload, stored⟩ := pr
        rw [hl] at h
        exact absurd h (by simp [refreshCommit])
  · intro env now db tok pw e h
    unfold resetPassword at h
    cases hl : resetLookup env now db tok with
    | error e2 =>
        rw [hl] at h
        have he : e2 = e := Except.error.inj h
        subst he
        exact resetLookup_error_cases env now db tok e2 hl
    | ok pr =>
        obtain ⟨payload, resetRec⟩ := pr
        rw [hl] at h
        exact absurd h (by simp)
  · intro env now db tok pw payload hv ht
    unfold resetPassword resetLookup
    rw [hv]
    dsimp only
    rw [if_pos ht]

/-- Closed witness for `error_collapsing_amended`: a malformed refresh
credential and the wrong-kind reset credential, both at concrete inputs. -/
theorem error_collapsing_amended_witness :
    (refreshTokenCall exEnv 5 exDB (.malformed "zz")).1 =
      .error ⟨"Invalid refresh token", 401⟩ ∧
    ((⟨"Invalid reset token", 400⟩ : AppError) =
        ⟨"Invalid or expired reset token", 400⟩ ∨
      (⟨"Invalid reset token", 400⟩ : AppError) =
        ⟨"Invalid reset token", 400⟩) ∧
    (resetPassword exEnv 100 exDB exAccessJwt "pw2pw2pw" ).1 =
      .error ⟨"Invalid reset token", 400⟩ :=
  ⟨by decide,
   error_collapsing_amended.2.1 exEnv 100 exDB exAccessJwt "pw2pw2pw"
     ⟨"Invalid reset token", 400⟩ (by decide),
   error_collapsing_amended.2.2 exEnv 100 exDB exAccessJwt "pw2pw2pw"
     ⟨"u1", .access⟩ (by decide) (by decide)⟩

/-! ## C8 — issue/verify round-trip -/

/-- **C8.** Round-trip: for every principal and every kind the system
issues, verifying the freshly issued credential before any expiry succeeds
and returns the principal's id with the issued kind. The access half of
`generateTokens` passes the `authenticate` check as `{userId, access}`; the
refresh half passes `verifyRefreshToken` as `{userId, refresh}`; and the
reset credential `forgotPassword` signs passes `jwt.verify` under
`JWT_SECRET` as `{userId, password-reset}`, satisfying the kind check of
`resetPassword`. -/
theorem issue_verify_roundtrip (env : Env) (now : Nat) (u : String)
    (haccess : 0 < accessTtl env) (hrefresh : 0 < refreshTtl env) :
    verifyAccessToken env now (generateTokens env now u).accessToken =
      .ok ⟨u, .access⟩ ∧
    verifyRefreshToken env now (generateTokens env now u).refreshToken =
      some ⟨u, .refresh⟩ ∧
    jwtVerify (jwtSign u .passwordReset env.jwtSecret storeResetTtlMs now)
        env.jwtSecret now = .ok ⟨u, .passwordReset⟩ := by
  have hva : jwtVerify (jwtSign u .access env.jwtSecret (accessTtl env) now)
      env.jwtSecret now = .ok ⟨u, .access⟩ := by
    unfold jwtSign jwtVerify
    dsimp only
    rw [if_neg (by simp), if_neg (by omega)]
  have hvr : jwtVerify
      (jwtSign u .refresh env.jwtRefreshSecret (refreshTtl env) now)
      env.jwtRefreshSecret now = .ok ⟨u, .refresh⟩ := by
    unfold jwtSign jwtVerify
    dsimp only
    rw [if_neg (by simp), if_neg (by omega)]
  refine ⟨?_, ?_, ?_⟩
  · unfold verifyAccessToken generateTokens
    rw [hva]
    rfl
  · unfold verifyRefreshToken generateTokens
    rw [hvr]
    rfl
  · unfold jwtSign jwtVerify
    dsimp only
    rw [if_neg (by simp), if_neg (by simp [storeResetTtlMs])]

/-- Closed witness for `issue_verify_roundtrip` with the concrete
configuration (default lifetimes). -/
theorem issue_verify_roundtrip_witness :
    (0 < accessTtl exEnv ∧ 0 < refreshTtl exEnv) ∧
    (verifyAccessToken exEnv 0 (generateTokens exEnv 0 "u9").accessToken =
        .ok ⟨"u9", .access⟩ ∧
      verifyRefreshToken exEnv 0 (generateTokens exEnv 0 "u9").refreshToken =
        some ⟨"u9", .refresh⟩ ∧
      jwtVerify (jwtSign "u9" .passwordReset exEnv.jwtSecret storeResetTtlMs 0)
          exEnv.jwtSecret 0 = .ok ⟨"u9", .passwordReset⟩) :=
  ⟨⟨by decide, by decide⟩,
   issue_verify_roundtrip exEnv 0 "u9" (by decide) (by decide)⟩

/-! ## C9 — rotation mutates the stored row in place -/

/-- **C9.** A successful rotation mutates the found RefreshRecord in place:
the store's refresh table afterwards is exactly the old table with the
id-keyed rewrite applied — same number of rows, so no second record is
created — where the rewrite never changes a row's id, principal binding
(`userId`) or `createdAt`, leaves every row with a different id untouched,
and gives the found row the new token value and 7-day expiry. The user and
reset tables are untouched. -/
theorem rotation_mutates_in_place (env : Env) (now : Nat) (db : DB)
    (tok : Token) (payload : TokenPayload) (stored : RefreshRecord)
    (hv : verifyRefreshToken env now tok = some payload)
    (hf : findFirstRefresh db tok payload.userId now = some stored) :
    (refreshTokenCall env now db tok).1 =
      .ok (generateTokens env now payload.userId) ∧
    (refreshTokenCall env now db tok).2.refreshTokens =
      db.refreshTokens.map
        (rotateRow stored.id
          (generateTokens env now payload.userId).refreshToken
          (now + storeRefreshTtlMs)) ∧
    (refreshTokenCall env now db tok).2.refreshTokens.length =
      db.refreshTokens.length ∧
    (∀ r : RefreshRecord,
      (rotateRow stored.id
          (generateTokens env now payload.userId).refreshToken
          (now + storeRefreshTtlMs) r).id = r.id ∧
      (rotateRow stored.id
          (generateTokens env now payload.userId).refreshToken
          (now + storeRefreshTtlMs) r).userId = r.userId ∧
      (rotateRow stored.id
          (generateTokens env now payload.userId).refreshToken
          (now + storeRefreshTtlMs) r).createdAt = r.createdAt) ∧
    (∀ r : RefreshRecord, r.id ≠ stored.id →
      rotateRow stored.id
        (generateTokens env now payload.userId).refreshToken
        (now + storeRefreshTtlMs) r = r) ∧
    rotateRow stored.id
        (generateTokens env now payload.userId).refreshToken
        (now + storeRefreshTtlMs) stored =
      { stored with
          token := (generateTokens env now payload.userId).refreshToken,
          expiresAt := now + storeRefreshTtlMs } ∧
    (refreshTokenCall env now db tok).2.users = db.users ∧
    (refreshTokenCall env now db tok).2.passwordResets =
      db.passwordResets := by
  have hlook : refreshLookup env now db tok = some (payload, stored) := by
    unfold refreshLookup
    rw [hv]
    dsimp only
    rw [hf]
  have hmain : refreshTokenCall env now db tok =
      (.ok (generateTokens env now payload.userId),
       updateRefreshById db stored.id
         (generateTokens env now payload.userId).refreshToken
         (now + storeRefreshTtlMs)) := by
    unfold refreshTokenCall
    rw [hlook]
    rfl
  rw [hmain]
  refine ⟨rfl, rfl, ?_, ?_, ?_, ?_, rfl, rfl⟩
  · exact List.length_map _ _
  · intro r
    exact ⟨rotateRow_id _ _ _ r, rotateRow_userId _ _ _ r,
      rotateRow_createdAt _ _ _ r⟩
  · intro r hr
    exact rotateRow_of_ne _ _ _ r hr
  · exact rotateRow_of_eq _ _ _ stored rfl

/-- Closed witness for `rotation_mutates_in_place` at the concrete store. -/
theorem rotation_mutates_in_place_witness :
    (verifyRefreshToken exEnv 60 exRefreshJwt = some ⟨"u1", .refresh⟩ ∧
      findFirstRefresh exDB exRefreshJwt "u1" 60 =
        some ⟨1, exRefreshJwt, "u1", 1000000, 0⟩) ∧
    ((refreshTokenCall exEnv 60 exDB exRefreshJwt).1 =
        .ok (generateTokens exEnv 60 "u1") ∧
      (refreshTokenCall exEnv 60 exDB exRefreshJwt).2.refreshTokens =
        exDB.refreshTokens.map
          (rotateRow 1 (generateTokens exEnv 60 "u1").refreshToken
            (60 + storeRefreshTtlMs)) ∧
      (refreshTokenCall exEnv 60 exDB exRefreshJwt).2.refreshTokens.length =
        exDB.refreshTokens.length ∧
      (∀ r : RefreshRecord,
        (rotateRow 1 (generateTokens exEnv 60 "u1").refreshToken
            (60 + storeRefreshTtlMs) r).id = r.id ∧
        (rotateRow 1 (generateTokens exEnv 60 "u1").refreshToken
            (60 + storeRefreshTtlMs) r).userId = r.userId ∧
        (rotateRow 1 (generateTokens exEnv 60 "u1").refreshToken
            (60 + storeRefreshTtlMs) r).createdAt = r.createdAt) ∧
      (∀ r : RefreshRecord, r.id ≠ 1 →
        rotateRow 1 (generateTokens exEnv 60 "u1").refreshToken
          (60 + storeRefreshTtlMs) r = r) ∧
      rotateRow 1 (generateTokens exEnv 60 "u1").refreshToken
          (60 + storeRefreshTtlMs) ⟨1, exRefreshJwt, "u1", 1000000, 0⟩ =
        ⟨1, (generateTokens exEnv 60 "u1").refreshToken, "u1",
          60 + storeRefreshTtlMs, 0⟩ ∧
      (refreshTokenCall exEnv 60 exDB exRefreshJwt).2.users = exDB.users ∧
      (refreshTokenCall exEnv 60 exDB exRefreshJwt).2.passwordResets =
        exDB.passwordResets) :=
  ⟨⟨by decide, by decide⟩,
   rotation_mutates_in_place exEnv 60 exDB exRefreshJwt ⟨"u1", .refresh⟩
     ⟨1, exRefreshJwt, "u1", 1000000, 0⟩ (by decide) (by decide)⟩

/-! ## C10 — the stored refresh expiry is a 7-day constant -/

/-- **C10.** On every successful registration, login and rotation, the
persisted RefreshRecord's `expiresAt` is exactly
`now + 7 * 24 * 60 * 60 * 1000` — a constant independent of the
`JWT_REFRESH_EXPIRES_IN` configuration (the conclusion's formula does not
mention `env`) — while the signed refresh credential's embedded expiry is
`now + refreshTtl env`, so whenever that configuration differs from 7 days
the stored expiry and the embedded expiry diverge. -/
theorem stored_expiry_constant (env : Env) (now : Nat) :
    storeRefreshTtlMs = 7 * 24 * 60 * 60 * 1000 ∧
    (∀ uid rid db email password name uid2 pair,
      (register env now uid rid db email password name).1 =
        .ok (uid2, pair) →
      (register env now uid rid db email password
          name).2.refreshTokens.getLast? =
        some { id := rid, token := pair.refreshToken, userId := uid2,
               expiresAt := now + 7 * 24 * 60 * 60 * 1000,
               createdAt := now }) ∧
    (∀ rid db email password uid pair,
      (login env now rid db email password).1 = .ok (uid, pair) →
      (login env now rid db email password).2.refreshTokens.getLast? =
        some { id := rid, token := pair.refreshToken, userId := uid,
               expiresAt := now + 7 * 24 * 60 * 60 * 1000,
               createdAt := now }) ∧
    (∀ db tok payload stored,
      verifyRefreshToken env now tok = some payload →
      findFirstRefresh db tok payload.userId now = some stored →
      ∀ r ∈ (refreshTokenCall env now db tok).2.refreshTokens,
        r.id = stored.id →
        r.expiresAt = now + 7 * 24 * 60 * 60 * 1000) ∧
    (∀ u, ((generateTokens env now u).refreshToken).expiry =
      some (now + refreshTtl env)) ∧
    (refreshTtl env ≠ 7 * 24 * 60 * 60 * 1000 →
      ∀ u, ((generateTokens env now u).refreshToken).expiry ≠
        some (now + storeRefreshTtlMs)) := by
  refine ⟨rfl, ?_, ?_, ?_, fun u => rfl, ?_⟩
  · intro uid rid db email password name uid2 pair h
    unfold register at h ⊢
    cases hu : findUserByEmail db email with
    | some user => rw [hu] at h; exact absurd h (by simp)
    | none =>
        rw [hu] at h
        dsimp only at h ⊢
        simp only [Except.ok.injEq, Prod.mk.injEq] at h
        obtain ⟨huid, hpair⟩ := h
        subst huid hpair
        simp only [createRefresh]
        exact List.getLast?_concat _
  · intro rid db email password uid pair h
    unfold login at h ⊢
    cases hu : findUserByEmail db email with
    | none => rw [hu] at h; exact absurd h (by simp)
    | some user =>
        rw [hu] at h
        dsimp only at h ⊢
        by_cases hp : bcryptCompare password user.password = false
        · rw [if_pos hp] at h; exact absurd h (by simp)
        · rw [if_neg hp] at h ⊢
          simp only [Except.ok.injEq, Prod.mk.injEq] at h
          obtain ⟨huid, hpair⟩ := h
          subst huid hpair
          simp only [loginCreatePhase, createRefresh]
          exact List.getLast?_concat _
  · intro db tok payload stored hv hf r hr hid
    unfold refreshTokenCall refreshLookup at hr
    rw [hv] at hr
    dsimp only at hr
    rw [hf] at hr
    simp only [refreshCommit, updateRefreshById] at hr
    obtain ⟨r0, _, rfl⟩ := List.mem_map.1 hr
    rw [rotateRow_id] at hid
    rw [rotateRow_of_eq _ _ _ _ hid]
    rfl
  · intro hne u
    simp only [generateTokens, jwtSign, Token.expiry, storeRefreshTtlMs,
      Option.some.injEq, ne_eq]
    omega

/-- Closed witness for `stored_expiry_constant`: a concrete registration
whose stored row carries the constant 7-day expiry. -/
theorem stored_expiry_constant_witness :
    (register exEnv 40 "u2" 9 exDB "new@x.com" "password1" "Bob").1 =
      .ok ("u2", generateTokens exEnv 40 "u2") ∧
    (register exEnv 40 "u2" 9 exDB "new@x.com" "password1"
        "Bob").2.refreshTokens.getLast? =
      some { id := 9, token := (generateTokens exEnv 40 "u2").refreshToken,
             userId := "u2", expiresAt := 40 + 7 * 24 * 60 * 60 * 1000,
             createdAt := 40 } :=
  ⟨by decide,
   (stored_expiry_constant exEnv 40).2.1 "u2" 9 exDB "new@x.com"
     "password1" "Bob" "u2" (generateTokens exEnv 40 "u2") (by decide)⟩

end AuthCore
